import Mathlib

/-!
Verification of the Privote asynchronous vote-submission and tally pipeline.

This file shallowly embeds the pipeline implemented in
`src/services/voteService.js`, `src/services/contractService.js`,
`src/jobs/jobQueue.js`, the BullMQ worker (`voteWorker`/`tallyWorker`) and
the Mongoose `Vote`/`Proposal` models.  Database state is explicit (lists of
records); MongoDB query/update operators are modelled as list operations;
genuinely external effects (the Redis queue accepting a job, the relayer and
the smart-contract ledger) are passed in as explicit outcome parameters, so
every definition is executable.
-/

namespace Privote

/-- Lifecycle status of a vote record — the `status` enum of `voteSchema`
(`src/models/Vote.js`): `pending`, `confirmed`, `failed`. -/
inductive VoteStatus where
  | pending
  | confirmed
  | failed
deriving DecidableEq, Repr

/-- One vote attempt — the `Vote` Mongoose model (`src/models/Vote.js`).
`id` stands for the Mongo `_id`. -/
structure VoteRecord where
  id : Nat
  proposalId : Nat
  userId : Nat
  encryptedVote : String
  inputProof : Option String := none
  weight : Nat := 1
  txHash : Option String := none
  blockNumber : Option Nat := none
  jobId : Option String := none
  status : VoteStatus := VoteStatus.pending
  errorMessage : Option String := none
  idempotencyKey : Option String := none
deriving DecidableEq, Repr

/-- The fields of the `Proposal` model consumed by the pipeline:
`closed`, the voting window, the on-chain proposal id (absent when the
proposal was never deployed — `typeof contractProposalId !== 'number'`),
the vote counter and the persisted encrypted tally handle. -/
structure Proposal where
  id : Nat
  closed : Bool
  startTime : Nat
  endTime : Nat
  contractProposalId : Option Nat := none
  voteCount : Nat := 0
  encryptedTally : Option String := none
  txHash : Option String := none
deriving DecidableEq, Repr

/-- `CustomError(message, statusCode, details)` from `src/utils/CustomError.js`,
restricted to the two fields the pipeline branches on. -/
structure CustomError where
  message : String
  statusCode : Nat
deriving DecidableEq, Repr

/-- Persistent store state: the `votes` and `proposals` collections, the set
of existing user ids (for `User.findById`), and the next fresh `_id` handed
out by an insert. -/
structure DB where
  votes : List VoteRecord
  proposals : List Proposal
  users : List Nat
  nextVoteId : Nat
deriving DecidableEq, Repr

/-- `Proposal.findById`. -/
def proposalFindById (db : DB) (pid : Nat) : Option Proposal :=
  db.proposals.find? (fun p => p.id == pid)

/-- `Vote.findOne({ proposalId, userId })`. -/
def voteFindByPair (db : DB) (pid uid : Nat) : Option VoteRecord :=
  db.votes.find? (fun v => v.proposalId == pid && v.userId == uid)

/-- `Vote.findOne({ idempotencyKey })`. -/
def voteFindByKey (db : DB) (key : String) : Option VoteRecord :=
  db.votes.find? (fun v => v.idempotencyKey == some key)

/-- `Vote.create(...)` — a MongoDB insert.  The unique composite index
`{ proposalId: 1, userId: 1 }` (`src/models/Vote.js` line 99) and the unique
sparse index on `idempotencyKey` (line 83) make the store itself reject a
duplicate insert with an `E11000` duplicate-key error. -/
def voteCreate (db : DB) (pid uid : Nat) (encryptedVote : String)
    (inputProof : Option String) (key : Option String) :
    Except CustomError (DB × VoteRecord) :=
  if db.votes.any (fun v => v.proposalId == pid && v.userId == uid) then
    Except.error { message := "E11000 duplicate key error: proposalId_1_userId_1", statusCode := 500 }
  else if key.isSome && db.votes.any (fun v => v.idempotencyKey == key) then
    Except.error { message := "E11000 duplicate key error: idempotencyKey_1", statusCode := 500 }
  else
    let v : VoteRecord :=
      { id := db.nextVoteId, proposalId := pid, userId := uid,
        encryptedVote := encryptedVote, inputProof := inputProof,
        weight := 1, status := VoteStatus.pending, idempotencyKey := key }
    Except.ok ({ db with votes := db.votes ++ [v], nextVoteId := db.nextVoteId + 1 }, v)

/-- `Vote.findByIdAndUpdate(vid, …)`: apply the update to the record with the
given id (no-op when absent, as in Mongo). -/
def voteUpdateById (db : DB) (vid : Nat) (f : VoteRecord → VoteRecord) : DB :=
  { db with votes := db.votes.map (fun v => if v.id == vid then f v else v) }

/-- `Vote.findByIdAndDelete(vid)`. -/
def voteDeleteById (db : DB) (vid : Nat) : DB :=
  { db with votes := db.votes.filter (fun v => !(v.id == vid)) }

/-- `Proposal.findByIdAndUpdate(pid, …)`. -/
def proposalUpdateById (db : DB) (pid : Nat) (f : Proposal → Proposal) : DB :=
  { db with proposals := db.proposals.map (fun p => if p.id == pid then f p else p) }

/-- `ProposalService.isProposalOpen` (`src/services/proposalService.js`):
not closed and `startTime <= now <= endTime`. -/
def isProposalOpen (p : Proposal) (now : Nat) : Bool :=
  !p.closed && decide (p.startTime ≤ now) && decide (now ≤ p.endTime)

/-- The value returned by `VoteService.submitVote`:
`{ vote, jobId }`, plus `isDuplicate: true` on the idempotency-key path. -/
structure SubmitResult where
  vote : VoteRecord
  jobId : Option String
  isDuplicate : Bool := false
deriving DecidableEq, Repr

/-- Tail of `VoteService.submitVote` (lines 77–131) after the eligibility and
duplicate checks: create the pending VoteRecord, attempt to enqueue the
background job, on queue failure delete the just-created record and throw a
503, otherwise store the job id on the record and return it.  `enq` is the
outcome of `addVoteJob` (an external Redis/BullMQ effect): `Except.ok jobId`
when the queue accepted the job, `Except.error msg` when the queue substrate
rejected it. -/
def submitVoteCreate (db : DB) (proposalId userId : Nat) (encryptedVote : String)
    (inputProof : Option String) (idempotencyKey : Option String)
    (enq : Except String String) : DB × Except CustomError SubmitResult :=
  match voteCreate db proposalId userId encryptedVote inputProof idempotencyKey with
  | Except.error e => (db, Except.error e)
  | Except.ok (db1, vote) =>
    match enq with
    | Except.error _ =>
      (voteDeleteById db1 vote.id,
       Except.error
         { message := "Failed to queue vote for processing. This usually means the background worker service is not running or Redis is unavailable. Please try again later or contact an administrator."
           statusCode := 503 })
    | Except.ok jobId =>
      (voteUpdateById db1 vote.id (fun v => { v with jobId := some jobId }),
       Except.ok { vote := { vote with jobId := some jobId }, jobId := some jobId,
                   isDuplicate := false })

/-- `VoteService.submitVote` (`src/services/voteService.js` lines 31–132),
checks in source order: proposal exists (404), proposal open (400), on-chain
mapping present (503), user has not already voted — any existing
`(proposalId, userId)` record throws 409 — then the idempotency-key lookup
returning the prior record as a duplicate, then create + enqueue. -/
def submitVote (db : DB) (now : Nat) (proposalId userId : Nat)
    (encryptedVote : String) (inputProof : Option String)
    (idempotencyKey : Option String) (enq : Except String String) :
    DB × Except CustomError SubmitResult :=
  match proposalFindById db proposalId with
  | none => (db, Except.error { message := "Proposal not found", statusCode := 404 })
  | some proposal =>
    if !(isProposalOpen proposal now) then
      (db, Except.error { message := "Proposal is not accepting votes", statusCode := 400 })
    else if proposal.contractProposalId.isNone then
      (db, Except.error
        { message := "This proposal has not been deployed to the blockchain yet. Proposals must be created via the API (POST /api/proposals) to be deployable. Please contact an administrator."
          statusCode := 503 })
    else
      match voteFindByPair db proposalId userId with
      | some _ =>
        (db, Except.error { message := "You have already voted on this proposal", statusCode := 409 })
      | none =>
        match idempotencyKey with
        | some key =>
          match voteFindByKey db key with
          | some duplicateVote =>
            (db, Except.ok { vote := duplicateVote, jobId := duplicateVote.jobId,
                             isDuplicate := true })
          | none =>
            submitVoteCreate db proposalId userId encryptedVote inputProof idempotencyKey enq
        | none =>
          submitVoteCreate db proposalId userId encryptedVote inputProof idempotencyKey enq

/-- The slice of `config` the handler reads: `config.fhevm.votingContractAddress`. -/
structure Config where
  votingContractAddress : Option String
deriving DecidableEq, Repr

/-- Payload of a `process-vote` job as built by `submitVote`/`addVoteJob`. -/
structure JobData where
  voteId : Nat
  proposalId : Nat
  contractProposalId : Option Nat
  userId : Nat
  encryptedVote : String
  inputProof : Option String := none
deriving DecidableEq, Repr

/-- Successful ledger submission: `{ txHash, blockNumber }` from the mined
transaction receipt. -/
structure TxOk where
  txHash : String
  blockNumber : Nat
deriving DecidableEq, Repr

/-- The raw error thrown by ethers when `contract.submitVote`/`tx.wait`
fails (or by the relayer phase): a message and, for contract reverts, an
optional decoded revert `reason`. -/
structure RawLedgerError where
  message : String
  reason : Option String := none
deriving DecidableEq, Repr

/-- Does `pat` occur as a contiguous run inside `l`? -/
def listHasRun (pat : List Char) : List Char → Bool
  | [] => pat.isEmpty
  | c :: rest => pat.isPrefixOf (c :: rest) || listHasRun pat rest

/-- String containment, for the `error.message.includes(...)` checks. -/
def strContains (s pat : String) : Bool :=
  listHasRun pat.toList s.toList

/-- The catch block of `ContractService.submitVote`
(`src/services/contractService.js` lines 186–212): map known revert reasons
to user-facing messages.  Every branch produces a message only; the thrown
`CustomError` always carries status code 500. -/
def classifySubmitVoteError (e : RawLedgerError) : String :=
  match e.reason with
  | some r => "Failed to submit vote to blockchain: " ++ r
  | none =>
    if strContains e.message "Already voted" then
      "You have already voted on this proposal"
    else if strContains e.message "Proposal closed" then
      "This proposal is no longer accepting votes"
    else if strContains e.message "Voting not started" then
      "Voting has not started yet for this proposal"
    else if strContains e.message "Voting ended" then
      "Voting period has ended for this proposal"
    else
      "Failed to submit vote to blockchain"

/-- `ContractService.submitVote` as seen by the handler: the network
interaction is the `ledger` oracle; a raw failure is rethrown as a
`CustomError` with the classified message and status code 500 — there is no
distinction between permanent reverts and transient faults in the thrown
value. -/
def contractSubmitVote (ledger : Except RawLedgerError TxOk) : Except CustomError TxOk :=
  match ledger with
  | Except.ok tx => Except.ok tx
  | Except.error e => Except.error { message := classifySubmitVoteError e, statusCode := 500 }

/-- The `try` block of `VoteService.processVoteSubmission`
(`src/services/voteService.js` lines 152–291): contract-address check, user
lookup, on-chain-id check, then the external relayer/ledger interaction
(the `ledger` oracle, whose failures reach the handler through
`contractSubmitVote`), and on success the two store updates — set the vote
confirmed with its tx data, then `$inc` the proposal `voteCount`. -/
def processVoteSubmissionTry (cfg : Config) (db : DB) (jd : JobData)
    (ledger : Except RawLedgerError TxOk) : Except CustomError (DB × TxOk) :=
  if cfg.votingContractAddress.isNone then
    Except.error
      { message := "VOTING_CONTRACT_ADDRESS not configured. Deploy the contract first."
        statusCode := 500 }
  else if !(db.users.contains jd.userId) then
    Except.error { message := "User not found", statusCode := 404 }
  else if jd.contractProposalId.isNone then
    Except.error { message := "Missing on-chain proposal ID for vote submission", statusCode := 500 }
  else
    match contractSubmitVote ledger with
    | Except.error e => Except.error e
    | Except.ok tx =>
      let db1 := voteUpdateById db jd.voteId (fun v =>
        { v with txHash := some tx.txHash, blockNumber := some tx.blockNumber,
                 status := VoteStatus.confirmed })
      let db2 := proposalUpdateById db1 jd.proposalId (fun p =>
        { p with voteCount := p.voteCount + 1 })
      Except.ok (db2, tx)

/-- `VoteService.processVoteSubmission` (lines 142–326): run the try block;
on any error the catch block (lines 293–325) sets the vote record to
`failed` with the error message and rethrows the error for the worker, which
rethrows it to BullMQ. -/
def processVoteSubmission (cfg : Config) (db : DB) (jd : JobData)
    (ledger : Except RawLedgerError TxOk) : DB × Except CustomError TxOk :=
  match processVoteSubmissionTry cfg db jd ledger with
  | Except.ok (db1, tx) => (db1, Except.ok tx)
  | Except.error e =>
    (voteUpdateById db jd.voteId (fun v =>
       { v with status := VoteStatus.failed, errorMessage := some e.message }),
     Except.error { message := e.message, statusCode := e.statusCode })

/-- `attempts: 3` of the `vote-submissions` queue (`src/jobs/jobQueue.js`
lines 32–43). -/
def voteMaxAttempts : Nat := 3

/-- `attempts: 2` of the `tally-computation` queue (`src/jobs/jobQueue.js`
lines 46–57). -/
def tallyMaxAttempts : Nat := 2

/-- Terminal state of one queued job after BullMQ stops redelivering it. -/
inductive JobFinal (α : Type) where
  | completed (result : α)
  | failed (reason : String)
  | stalled
deriving DecidableEq, Repr

/-- BullMQ delivery loop for one job: each delivery runs the handler
(`step`) on the current store state and the next external outcome from
`schedule`; a throw is redelivered while attempts remain, and after the
configured total number of attempts the job moves to `failed` permanently.
Returns the final store state, the job's terminal state, and the number of
attempts consumed (`stalled` covers the out-of-model cases of an exhausted
schedule or a zero budget). -/
def runJobAux {α ε : Type} (step : DB → ε → DB × Except CustomError α) :
    DB → List ε → Nat → DB × JobFinal α × Nat
  | db, _, 0 => (db, JobFinal.stalled, 0)
  | db, [], _ + 1 => (db, JobFinal.stalled, 0)
  | db, ext :: _, 1 =>
    match step db ext with
    | (db1, Except.ok a) => (db1, JobFinal.completed a, 1)
    | (db1, Except.error e) => (db1, JobFinal.failed e.message, 1)
  | db, ext :: rest, k + 2 =>
    match step db ext with
    | (db1, Except.ok a) => (db1, JobFinal.completed a, 1)
    | (db1, Except.error _) =>
      let r := runJobAux step db1 rest (k + 1)
      (r.1, r.2.1, r.2.2 + 1)

/-- A `process-vote` job run by `voteWorker` under the vote queue's retry
policy (3 attempts): `schedule` lists the ledger outcome seen by each
attempt. -/
def runVoteJob (cfg : Config) (jd : JobData) (db : DB)
    (schedule : List (Except RawLedgerError TxOk)) : DB × JobFinal TxOk × Nat :=
  runJobAux (fun db ext => processVoteSubmission cfg db jd ext) db schedule voteMaxAttempts

/-- Outcome of `VoteService.computeTally`: either the defined no-op result
`{ encryptedTally: null, voteCount: 0 }` or a computed tally
`{ encryptedTally, voteCount, txHash }`. -/
inductive TallyResult where
  | noop
  | computed (handle : String) (voteCount : Nat) (txHash : String)
deriving DecidableEq, Repr

/-- Successful on-chain aggregation: the tally transaction hash from
`contractService.computeTally` and the handle from
`contractService.getEncryptedTally`. -/
structure TallyOk where
  txHash : String
  handle : String
deriving DecidableEq, Repr

/-- `VoteService.computeTally` (`src/services/voteService.js` lines
336–408): proposal exists (404), proposal closed (400), on-chain id present
(503); then `Vote.find({ proposalId })` — all statuses; zero fetched votes
is the no-op return; otherwise the on-chain aggregation (`agg` oracle,
fusing `contractService.computeTally` and `getEncryptedTally`) runs and on
success the handle and tx hash are persisted on the proposal; an aggregation
failure is rethrown as a 500. -/
def computeTally (db : DB) (proposalId : Nat) (agg : Except String TallyOk) :
    DB × Except CustomError TallyResult :=
  match proposalFindById db proposalId with
  | none => (db, Except.error { message := "Proposal not found", statusCode := 404 })
  | some proposal =>
    if !proposal.closed then
      (db, Except.error { message := "Proposal must be closed before tallying", statusCode := 400 })
    else if proposal.contractProposalId.isNone then
      (db, Except.error { message := "On-chain proposal not ready for tallying", statusCode := 503 })
    else
      let votes := db.votes.filter (fun v => v.proposalId == proposalId)
      if votes.length == 0 then
        (db, Except.ok TallyResult.noop)
      else
        match agg with
        | Except.error _ =>
          (db, Except.error { message := "Tally computation failed", statusCode := 500 })
        | Except.ok t =>
          (proposalUpdateById db proposalId (fun p =>
             { p with encryptedTally := some t.handle, txHash := some t.txHash }),
           Except.ok (TallyResult.computed t.handle votes.length t.txHash))

/-- A `compute-tally` job run by `tallyWorker` under the tally queue's retry
policy (2 attempts). -/
def runTallyJob (proposalId : Nat) (db : DB) (schedule : List (Except String TallyOk)) :
    DB × JobFinal TallyResult × Nat :=
  runJobAux (fun db agg => computeTally db proposalId agg) db schedule tallyMaxAttempts

/-- Number of vote records for a proposal with status `confirmed`. -/
def confirmedCount (db : DB) (pid : Nat) : Nat :=
  (db.votes.filter (fun v =>
    v.proposalId == pid && decide (v.status = VoteStatus.confirmed))).length

/-- The proposal's stored `voteCount` (0 when the proposal is absent). -/
def proposalVoteCount (db : DB) (pid : Nat) : Nat :=
  match proposalFindById db pid with
  | some p => p.voteCount
  | none => 0

/-- Two vote records collide on the unique composite index. -/
abbrev SamePair (a b : VoteRecord) : Prop :=
  a.proposalId = b.proposalId ∧ a.userId = b.userId

/-- The invariant enforced by the unique index `{ proposalId: 1, userId: 1 }`:
no two records share a (proposalId, userId) pair. -/
def PairUnique (votes : List VoteRecord) : Prop :=
  votes.Pairwise (fun a b => ¬ SamePair a b)

/-! Concrete fixtures used by the counterexamples and witnesses. -/

/-- Fixture: a deployed proposal whose voting window [0, 100] is open. -/
def prop1 : Proposal :=
  { id := 1, closed := false, startTime := 0, endTime := 100,
    contractProposalId := some 7, voteCount := 0 }

/-- Fixture: `prop1` after the operator closed it. -/
def closedProp : Proposal := { prop1 with closed := true }

/-- Fixture: a pending vote by user 1 on proposal 1 holding idempotency
key "k1" and job "job-1". -/
def pendingVote : VoteRecord :=
  { id := 0, proposalId := 1, userId := 1, encryptedVote := "0xabc",
    jobId := some "job-1", idempotencyKey := some "k1" }

/-- Fixture: `pendingVote` after a terminal failure. -/
def failedVote : VoteRecord := { pendingVote with status := VoteStatus.failed }

/-- Fixture: `pendingVote` after on-chain confirmation. -/
def confirmedVote : VoteRecord :=
  { pendingVote with
    status := VoteStatus.confirmed,
    txHash := some "0xT1",
    blockNumber := some 5 }

/-- Fixture: store with the single pending vote on the open proposal. -/
def db1 : DB := { votes := [pendingVote], proposals := [prop1], users := [1], nextVoteId := 1 }

/-- Fixture: store with the open proposal, user 1 and no votes. -/
def dbEmpty : DB := { votes := [], proposals := [prop1], users := [1], nextVoteId := 0 }

/-- Fixture: a vote by a different user (2) holding idempotency key "k1". -/
def otherUserVote : VoteRecord :=
  { id := 0, proposalId := 1, userId := 2, encryptedVote := "0xabc",
    jobId := some "job-1", idempotencyKey := some "k1" }

/-- Fixture: store where user 2 holds key "k1" and user 1 has not voted. -/
def dbOther : DB :=
  { votes := [otherUserVote], proposals := [prop1], users := [1, 2], nextVoteId := 1 }

/-- Fixture: closed proposal that already has a persisted tally handle. -/
def talliedProp : Proposal :=
  { closedProp with
    voteCount := 1,
    encryptedTally := some "0xH0",
    txHash := some "0xT0" }

/-- Fixture: the already-tallied closed proposal with its confirmed vote. -/
def dbTallied : DB :=
  { votes := [confirmedVote], proposals := [talliedProp], users := [1], nextVoteId := 1 }

/-- Fixture: closed, not yet tallied proposal with one confirmed vote. -/
def dbClosedConfirmed : DB :=
  { votes := [confirmedVote], proposals := [{ closedProp with voteCount := 1 }],
    users := [1], nextVoteId := 1 }

/-- Fixture: closed proposal whose only vote failed (zero confirmed votes). -/
def dbFailedOnly : DB :=
  { votes := [failedVote], proposals := [closedProp], users := [1], nextVoteId := 1 }

/-- Fixture: closed proposal with no vote records at all. -/
def dbClosedEmpty : DB :=
  { votes := [], proposals := [closedProp], users := [1], nextVoteId := 0 }

/-- Fixture: open proposal whose only vote record failed. -/
def dbFailedOpen : DB :=
  { votes := [failedVote], proposals := [prop1], users := [1], nextVoteId := 1 }

/-- Fixture: configured contract address. -/
def cfg1 : Config := { votingContractAddress := some "0xC0FFEE" }

/-- Fixture: the submission job for `pendingVote`. -/
def jd1 : JobData :=
  { voteId := 0, proposalId := 1, contractProposalId := some 7, userId := 1,
    encryptedVote := "0xabc" }

/-- Fixture: a mined submission transaction. -/
def txOk1 : TxOk := { txHash := "0xT1", blockNumber := 5 }

/-- Fixture: a first successful on-chain aggregation. -/
def tallyOk1 : TallyOk := { txHash := "0xTA", handle := "0xH1" }

/-- Fixture: a second successful on-chain aggregation. -/
def tallyOk2 : TallyOk := { txHash := "0xTB", handle := "0xH2" }

/-- Fixture: a transient-looking raw failure (relayer timeout, no revert
reason). -/
def timeoutErr : RawLedgerError :=
  { message := "Relayer encryptInput timed out after 60 seconds" }

/-- Fixture: a permanent ledger revert — the contract's "Already voted"
rejection. -/
def alreadyVotedErr : RawLedgerError :=
  { message := "execution reverted: Already voted", reason := some "Already voted" }

/-! Helper lemmas about the store operations and the retry loop. -/

/-- Updating a proposal leaves the votes collection untouched. -/
theorem votes_proposalUpdateById (db : DB) (pid : Nat) (f : Proposal → Proposal) :
    (proposalUpdateById db pid f).votes = db.votes := rfl

/-- Updating a vote leaves the proposals collection untouched. -/
theorem proposals_voteUpdateById (db : DB) (vid : Nat) (f : VoteRecord → VoteRecord) :
    (voteUpdateById db vid f).proposals = db.proposals := rfl

/-- Looking a proposal up after an id-preserving `findByIdAndUpdate`. -/
theorem proposalFindById_updateById (db : DB) (pid : Nat) (f : Proposal → Proposal)
    (hf : ∀ q, (f q).id = q.id) :
    proposalFindById (proposalUpdateById db pid f) pid
      = Option.map (fun q => if q.id == pid then f q else q) (proposalFindById db pid) := by
  show (db.proposals.map (fun q => if q.id == pid then f q else q)).find? (fun p => p.id == pid)
      = Option.map (fun q => if q.id == pid then f q else q)
          (db.proposals.find? (fun p => p.id == pid))
  rw [List.find?_map]
  have hpred : ((fun p : Proposal => p.id == pid) ∘ fun q => if q.id == pid then f q else q)
      = (fun p : Proposal => p.id == pid) := by
    funext q
    by_cases h : q.id = pid
    · simp [Function.comp, h, hf q]
    · simp [Function.comp, h]
  rw [hpred]

/-- With a failed ledger interaction, the try block of the handler always
throws, whichever guard or the classified submission error produces it. -/
theorem processVoteSubmissionTry_ledger_error (cfg : Config) (db : DB) (jd : JobData)
    (e : RawLedgerError) :
    ∃ c : CustomError, processVoteSubmissionTry cfg db jd (Except.error e) = Except.error c := by
  unfold processVoteSubmissionTry
  split_ifs <;> exact ⟨_, rfl⟩

/-- With a failed ledger interaction, the handler marks the record failed
and rethrows: the catch block runs on every failing attempt. -/
theorem processVoteSubmission_ledger_error (cfg : Config) (db : DB) (jd : JobData)
    (e : RawLedgerError) :
    ∃ c : CustomError, processVoteSubmission cfg db jd (Except.error e)
      = (voteUpdateById db jd.voteId (fun v =>
           { v with status := VoteStatus.failed, errorMessage := some c.message }),
         Except.error c) := by
  obtain ⟨c, hc⟩ := processVoteSubmissionTry_ledger_error cfg db jd e
  exact ⟨c, by unfold processVoteSubmission; rw [hc]⟩

/-- After any failing attempt, every record with the job's vote id has
status `failed` — already on the first failure. -/
theorem processVoteSubmission_marks_failed (cfg : Config) (db : DB) (jd : JobData)
    (e : RawLedgerError) :
    ∀ v ∈ (processVoteSubmission cfg db jd (Except.error e)).1.votes,
      v.id = jd.voteId → v.status = VoteStatus.failed := by
  obtain ⟨c, hc⟩ := processVoteSubmission_ledger_error cfg db jd e
  rw [hc]
  intro v hv hid
  simp only [voteUpdateById, List.mem_map] at hv
  obtain ⟨w, _, hweq⟩ := hv
  by_cases h : w.id = jd.voteId
  · rw [← hweq]
    simp [h]
  · rw [← hweq] at hid
    simp [h] at hid

/-- The queue's retry loop: when every delivered attempt throws, the job
consumes its whole attempt budget and only then moves to `failed`. -/
theorem runJobAux_all_errors {α ε : Type} (step : DB → ε → DB × Except CustomError α) :
    ∀ (k : Nat) (db : DB) (sched : List ε),
      1 ≤ k → k ≤ sched.length →
      (∀ x ∈ sched, ∀ d : DB, ∃ d2 c, step d x = (d2, Except.error c)) →
      ∃ dbf msg, runJobAux step db sched k = (dbf, JobFinal.failed msg, k)
  | 0, _, _, h1, _, _ => absurd h1 (by omega)
  | _ + 1, _, [], _, h2, _ => absurd h2 (by simp)
  | 1, db, x :: rest, _, _, hstep => by
    obtain ⟨d2, c, hc⟩ := hstep x (List.mem_cons_self x rest) db
    exact ⟨d2, c.message, by unfold runJobAux; rw [hc]⟩
  | k + 2, db, x :: rest, _, h2, hstep => by
    obtain ⟨d2, c, hc⟩ := hstep x (List.mem_cons_self x rest) db
    have h2a : k + 1 ≤ rest.length := by
      simpa using h2
    obtain ⟨dbf, msg, hrec⟩ :=
      runJobAux_all_errors step (k + 1) d2 rest (by omega) h2a
        (fun y hy d => hstep y (List.mem_cons_of_mem x hy) d)
    refine ⟨dbf, msg, ?_⟩
    unfold runJobAux
    rw [hc]
    simp only [hrec]

/-- Three consecutive failing deliveries of one submission job exhaust the
vote queue's attempt budget of 3 and leave the job permanently failed. -/
theorem runVoteJob_three_errors (cfg : Config) (db : DB) (jd : JobData)
    (e1 e2 e3 : RawLedgerError) :
    ∃ dbf msg, runVoteJob cfg jd db [Except.error e1, Except.error e2, Except.error e3]
      = (dbf, JobFinal.failed msg, voteMaxAttempts) := by
  have hstep : ∀ x ∈ [Except.error e1, Except.error e2, Except.error e3],
      ∀ d : DB, ∃ d2 c,
        processVoteSubmission cfg d jd x = (d2, Except.error c) := by
    intro x hx d
    have hx2 : x = Except.error e1 ∨ x = Except.error e2 ∨ x = Except.error e3 := by
      simpa using hx
    rcases hx2 with h | h | h <;> subst h <;>
      { obtain ⟨c, hc⟩ := processVoteSubmission_ledger_error cfg d jd _
        exact ⟨_, c, hc⟩ }
  exact runJobAux_all_errors _ voteMaxAttempts db _ (by decide)
    (by simp [voteMaxAttempts]) hstep

/-- Unfolding a two-attempt job whose both deliveries throw. -/
theorem runJobAux_two_errors {α ε : Type} (step : DB → ε → DB × Except CustomError α)
    (db d1 d2 : DB) (x y : ε) (c1 c2 : CustomError)
    (hx : step db x = (d1, Except.error c1))
    (hy : step d1 y = (d2, Except.error c2)) :
    runJobAux step db [x, y] 2 = (d2, JobFinal.failed c2.message, 2) := by
  show runJobAux step db [x, y] (0 + 2) = (d2, JobFinal.failed c2.message, 2)
  unfold runJobAux
  rw [hx]
  simp only
  unfold runJobAux
  rw [hy]

/-- `computeTally` against a not-yet-closed proposal throws the 400
precondition error and leaves the store untouched. -/
theorem computeTally_not_closed (db : DB) (pid : Nat) (p : Proposal)
    (s : Except String TallyOk)
    (hp : proposalFindById db pid = some p) (hclosed : p.closed = false) :
    computeTally db pid s
      = (db, Except.error
          { message := "Proposal must be closed before tallying", statusCode := 400 }) := by
  unfold computeTally
  rw [hp]
  simp [hclosed]

/-! Claim theorems. -/

/-- C1 (amended): a submission job whose every attempt fails is retried up
to `voteMaxAttempts = 3` before BullMQ moves it to `failed`; however the
VoteRecord does not remain pending while retries remain — the handler's
catch block marks it `failed` on every failing attempt, including the
first. -/
theorem c1_retried_to_budget_but_marked_failed_each_attempt
    (cfg : Config) (db : DB) (jd : JobData) (e e1 e2 e3 : RawLedgerError) :
    (∀ v ∈ (processVoteSubmission cfg db jd (Except.error e)).1.votes,
        v.id = jd.voteId → v.status = VoteStatus.failed) ∧
    (∃ dbf msg,
        runVoteJob cfg jd db [Except.error e1, Except.error e2, Except.error e3]
          = (dbf, JobFinal.failed msg, voteMaxAttempts)) :=
  ⟨processVoteSubmission_marks_failed cfg db jd e,
   runVoteJob_three_errors cfg db jd e1 e2 e3⟩

/-- C1 counterexample: after the first failing attempt (a relayer timeout)
of a 3-attempt submission job, the VoteRecord is already `failed` — it does
not remain `pending` although 2 retries remain. -/
theorem c1_counterexample :
    1 < voteMaxAttempts ∧
    (voteFindByPair (processVoteSubmission cfg1 db1 jd1 (Except.error timeoutErr)).1 1 1).map
        VoteRecord.status = some VoteStatus.failed ∧
    ¬ ((voteFindByPair (processVoteSubmission cfg1 db1 jd1 (Except.error timeoutErr)).1 1 1).map
        VoteRecord.status = some VoteStatus.pending) := by
  decide

/-- C3 (amended): a ledger rejection with a permanent revert reason marks
the VoteRecord failed on that first failing attempt, but the rejection is
not classified as permanent: `ContractService.submitVote` rethrows every
revert as a plain 500 `CustomError`, the worker rethrows it to BullMQ, and
the job is redelivered until all 3 attempts are consumed. -/
theorem c3_permanent_rejection_rethrown_and_retried
    (cfg : Config) (db : DB) (jd : JobData) (r : String) (e1 e2 e3 : RawLedgerError)
    (hr : e1.reason = some r) :
    contractSubmitVote (Except.error e1)
      = Except.error
          { message := "Failed to submit vote to blockchain: " ++ r, statusCode := 500 } ∧
    (∀ v ∈ (processVoteSubmission cfg db jd (Except.error e1)).1.votes,
        v.id = jd.voteId → v.status = VoteStatus.failed) ∧
    (∃ dbf msg,
        runVoteJob cfg jd db [Except.error e1, Except.error e2, Except.error e3]
          = (dbf, JobFinal.failed msg, voteMaxAttempts)) := by
  refine ⟨?_, processVoteSubmission_marks_failed cfg db jd e1,
    runVoteJob_three_errors cfg db jd e1 e2 e3⟩
  simp [contractSubmitVote, classifySubmitVoteError, hr]

/-- C3 counterexample: an "Already voted" revert on the first attempt does
not stop redelivery — the job consumes all 3 attempts instead of 1. -/
theorem c3_counterexample :
    (runVoteJob cfg1 jd1 db1
        [Except.error alreadyVotedErr, Except.error alreadyVotedErr,
         Except.error alreadyVotedErr]).2.2 = 3 ∧ (3 ≠ 1) := by
  decide

/-- C3 witness: the amended theorem at the concrete "Already voted"
revert. -/
theorem c3_witness :
    ∃ dbf msg,
      runVoteJob cfg1 jd1 db1
        [Except.error alreadyVotedErr, Except.error alreadyVotedErr,
         Except.error alreadyVotedErr]
        = (dbf, JobFinal.failed msg, voteMaxAttempts) :=
  (c3_permanent_rejection_rethrown_and_retried cfg1 db1 jd1 "Already voted"
    alreadyVotedErr alreadyVotedErr alreadyVotedErr rfl).2.2

/-- C9 (amended): a tally job executing while its proposal is not closed
throws the 400 precondition error without touching the store, but the tally
queue is configured with `attempts: 2`, so the queue redelivers that same
job instance once; only after the second failure is the instance
terminally failed (and only a new operator-enqueued job can tally again). -/
theorem c9_tally_before_close_retried_once (db : DB) (pid : Nat) (p : Proposal)
    (s1 s2 : Except String TallyOk)
    (hp : proposalFindById db pid = some p) (hclosed : p.closed = false) :
    computeTally db pid s1
        = (db, Except.error
            { message := "Proposal must be closed before tallying", statusCode := 400 }) ∧
    runTallyJob pid db [s1, s2]
        = (db, JobFinal.failed "Proposal must be closed before tallying", tallyMaxAttempts) ∧
    tallyMaxAttempts = 2 := by
  have h1 := computeTally_not_closed db pid p s1 hp hclosed
  have h2 := computeTally_not_closed db pid p s2 hp hclosed
  refine ⟨h1, ?_, rfl⟩
  have hloop := runJobAux_two_errors (fun d agg => computeTally d pid agg) db db db s1 s2
    { message := "Proposal must be closed before tallying", statusCode := 400 }
    { message := "Proposal must be closed before tallying", statusCode := 400 } h1 h2
  simpa [runTallyJob, tallyMaxAttempts] using hloop

/-- C9 counterexample: against the still-open `prop1`, the tally job
instance consumes 2 attempts — it IS redelivered once by the queue rather
than failing terminally on its first execution. -/
theorem c9_counterexample :
    (runTallyJob 1 db1 [Except.ok tallyOk1, Except.ok tallyOk2]).2.2 = 2 ∧ (2 ≠ 1) := by
  decide

/-- C9 witness: the amended theorem at the concrete open proposal. -/
theorem c9_witness :
    runTallyJob 1 db1 [Except.ok tallyOk1, Except.ok tallyOk2]
      = (db1, JobFinal.failed "Proposal must be closed before tallying", tallyMaxAttempts) :=
  (c9_tally_before_close_retried_once db1 1 prop1 (Except.ok tallyOk1) (Except.ok tallyOk2)
    (by decide) rfl).2.1

/-- C4 (amended): the idempotency-key branch does return the original
VoteRecord with its job reference, marked as a duplicate and creating
nothing — but it is reachable only when no (proposalId, userId) record
exists for the caller, because the already-voted check runs first (see the
counterexample: a same-user retry of an accepted submission gets a 409
instead). -/
theorem c4_duplicate_token_returns_original (db : DB) (now pid uid : Nat)
    (ev : String) (ip : Option String) (key : String) (enq : Except String String)
    (p : Proposal) (w : VoteRecord)
    (hp : proposalFindById db pid = some p)
    (hopen : isProposalOpen p now = true)
    (hcid : p.contractProposalId.isNone = false)
    (hpair : voteFindByPair db pid uid = none)
    (hkey : voteFindByKey db key = some w) :
    submitVote db now pid uid ev ip (some key) enq
      = (db, Except.ok { vote := w, jobId := w.jobId, isDuplicate := true }) := by
  unfold submitVote
  rw [hp]
  simp [hopen, hcid, hpair, hkey]

/-- C4 counterexample: user 1 retries their accepted submission on proposal
1 with the same idempotency token "k1"; `submitVote` rejects the retry with
the 409 already-voted error instead of returning the original record,
because the already-voted check precedes the idempotency lookup. -/
theorem c4_counterexample :
    submitVote db1 10 1 1 "0xabc" none (some "k1") (Except.ok "job-2")
      = (db1, Except.error
          { message := "You have already voted on this proposal", statusCode := 409 }) := by
  rfl

/-- C4 witness: a caller without a (proposalId, userId) record reusing the
reserved token "k1" receives the original record as a duplicate. -/
theorem c4_witness :
    submitVote dbOther 10 1 1 "0xdef" none (some "k1") (Except.ok "j2")
      = (dbOther, Except.ok { vote := otherUserVote, jobId := some "job-1",
                              isDuplicate := true }) :=
  c4_duplicate_token_returns_original dbOther 10 1 1 "0xdef" none "k1" (Except.ok "j2")
    prop1 otherUserVote (by decide) (by decide) (by decide) (by decide) (by decide)

/-- C10: `submitVote` rejects with the already-voted 409 error whenever any
VoteRecord exists for the (proposalId, userId) pair — the record's status
is unconstrained, so a `failed` record blocks re-submission exactly like a
confirmed one, and the store is left unchanged. -/
theorem c10_any_status_blocks_resubmission (db : DB) (now pid uid : Nat)
    (ev : String) (ip key : Option String) (enq : Except String String)
    (p : Proposal) (w : VoteRecord)
    (hp : proposalFindById db pid = some p)
    (hopen : isProposalOpen p now = true)
    (hcid : p.contractProposalId.isNone = false)
    (hw : w ∈ db.votes) (hwp : w.proposalId = pid) (hwu : w.userId = uid) :
    submitVote db now pid uid ev ip key enq
      = (db, Except.error
          { message := "You have already voted on this proposal", statusCode := 409 }) := by
  have hfind : (voteFindByPair db pid uid).isSome := by
    unfold voteFindByPair
    rw [List.find?_isSome]
    exact ⟨w, hw, by simp [hwp, hwu]⟩
  obtain ⟨u, hu⟩ := Option.isSome_iff_exists.mp hfind
  unfold submitVote
  rw [hp]
  simp [hopen, hcid, hu]

/-- C10 witness: user 1's earlier vote on proposal 1 ended in `failed`, yet
their new submission with a fresh idempotency token is rejected with the
409 already-voted error. -/
theorem c10_witness :
    submitVote dbFailedOpen 10 1 1 "0xnew" none (some "k9") (Except.ok "j9")
      = (dbFailedOpen, Except.error
          { message := "You have already voted on this proposal", statusCode := 409 }) :=
  c10_any_status_blocks_resubmission dbFailedOpen 10 1 1 "0xnew" none (some "k9")
    (Except.ok "j9") prop1 failedVote (by decide) (by decide) (by decide)
    (by decide) rfl rfl

/-- The create-and-enqueue tail when the queue rejects the job: the
just-created record is deleted again and a 503 is thrown. -/
theorem submitVoteCreate_enqueue_failure (db : DB) (pid uid : Nat) (ev : String)
    (ip key : Option String) (msg : String)
    (hpair : voteFindByPair db pid uid = none)
    (hkey : ∀ k, key = some k → voteFindByKey db k = none)
    (hfresh : ∀ w ∈ db.votes, w.id ≠ db.nextVoteId) :
    (submitVoteCreate db pid uid ev ip key (Except.error msg)).1.votes = db.votes ∧
    (submitVoteCreate db pid uid ev ip key (Except.error msg)).2
      = Except.error
          { message := "Failed to queue vote for processing. This usually means the background worker service is not running or Redis is unavailable. Please try again later or contact an administrator."
            statusCode := 503 } := by
  unfold voteFindByPair at hpair
  have hnone := List.find?_eq_none.mp hpair
  have h1 : db.votes.any (fun v => v.proposalId == pid && v.userId == uid) = false := by
    rw [← Bool.not_eq_true, List.any_eq_true]
    rintro ⟨x, hx, hpx⟩
    exact absurd hpx (hnone x hx)
  have hall : db.votes.filter (fun w => !(w.id == db.nextVoteId)) = db.votes :=
    List.filter_eq_self.mpr (fun w hw => by simp [hfresh w hw])
  cases key with
  | none =>
    refine ⟨?_, ?_⟩ <;>
      simp [submitVoteCreate, voteCreate, h1, voteDeleteById, List.filter_append, hall]
  | some k =>
    have hk := hkey k rfl
    unfold voteFindByKey at hk
    have hknone := List.find?_eq_none.mp hk
    have h2 : db.votes.any (fun v => v.idempotencyKey == some k) = false := by
      rw [← Bool.not_eq_true, List.any_eq_true]
      rintro ⟨x, hx, hpx⟩
      exact absurd hpx (hknone x hx)
    refine ⟨?_, ?_⟩ <;>
      simp [submitVoteCreate, voteCreate, h1, h2, voteDeleteById, List.filter_append, hall]

/-- C7: when the queue substrate rejects the submission job after the
pending VoteRecord was created, `submitVote` deletes the just-created
record — the votes collection ends exactly as it began, so no orphaned
pending record remains — and the condition is reported synchronously to
the caller as a retryable 503. -/
theorem c7_enqueue_failure_rolls_back (db : DB) (now pid uid : Nat) (ev : String)
    (ip key : Option String) (msg : String) (p : Proposal)
    (hp : proposalFindById db pid = some p)
    (hopen : isProposalOpen p now = true)
    (hcid : p.contractProposalId.isNone = false)
    (hpair : voteFindByPair db pid uid = none)
    (hkey : ∀ k, key = some k → voteFindByKey db k = none)
    (hfresh : ∀ w ∈ db.votes, w.id ≠ db.nextVoteId) :
    (submitVote db now pid uid ev ip key (Except.error msg)).1.votes = db.votes ∧
    (submitVote db now pid uid ev ip key (Except.error msg)).2
      = Except.error
          { message := "Failed to queue vote for processing. This usually means the background worker service is not running or Redis is unavailable. Please try again later or contact an administrator."
            statusCode := 503 } := by
  have htail := submitVoteCreate_enqueue_failure db pid uid ev ip key msg hpair hkey hfresh
  have hred : submitVote db now pid uid ev ip key (Except.error msg)
      = submitVoteCreate db pid uid ev ip key (Except.error msg) := by
    unfold submitVote
    rw [hp]
    cases key with
    | none => simp [hopen, hcid, hpair]
    | some k => simp [hopen, hcid, hpair, hkey k rfl]
  rw [hred]
  exact htail

/-- C7 witness: against the open proposal with an empty store, a Redis
outage during enqueue leaves no vote record behind and returns the 503. -/
theorem c7_witness :
    (submitVote dbEmpty 10 1 1 "0xabc" none (some "k1") (Except.error "redis down")).1.votes
        = dbEmpty.votes ∧
    (submitVote dbEmpty 10 1 1 "0xabc" none (some "k1") (Except.error "redis down")).2
      = Except.error
          { message := "Failed to queue vote for processing. This usually means the background worker service is not running or Redis is unavailable. Please try again later or contact an administrator."
            statusCode := 503 } :=
  c7_enqueue_failure_rolls_back dbEmpty 10 1 1 "0xabc" none (some "k1") "redis down"
    prop1 (by decide) (by decide) (by decide) (by decide)
    (by intro k hk; cases hk; decide) (by intro w hw; cases hw)

/-- With configured contract address, existing user and on-chain id, a
successful ledger interaction drives the handler's success path: confirm
the record with its tx data, then increment the proposal counter. -/
theorem processVoteSubmission_ok (cfg : Config) (db : DB) (jd : JobData) (tx : TxOk)
    (hcfg : cfg.votingContractAddress.isNone = false)
    (huser : jd.userId ∈ db.users)
    (hcid : jd.contractProposalId.isNone = false) :
    processVoteSubmission cfg db jd (Except.ok tx)
      = (proposalUpdateById
           (voteUpdateById db jd.voteId (fun v =>
             { v with txHash := some tx.txHash, blockNumber := some tx.blockNumber,
                      status := VoteStatus.confirmed }))
           jd.proposalId (fun p => { p with voteCount := p.voteCount + 1 }),
         Except.ok tx) := by
  unfold processVoteSubmission processVoteSubmissionTry contractSubmitVote
  simp [hcfg, huser, hcid]

/-- Confirming the record with the given id, when it occurs exactly once,
rewrites the votes list pointwise. -/
theorem confirm_map_decomp (l1 l2 : List VoteRecord) (v : VoteRecord) (vid : Nat) (tx : TxOk)
    (hid : v.id = vid)
    (hfresh : ∀ w, w ∈ l1 ∨ w ∈ l2 → w.id ≠ vid) :
    (l1 ++ v :: l2).map (fun w => if w.id == vid then
        { w with txHash := some tx.txHash, blockNumber := some tx.blockNumber,
                 status := VoteStatus.confirmed } else w)
      = l1 ++ ({ v with txHash := some tx.txHash, blockNumber := some tx.blockNumber,
                        status := VoteStatus.confirmed }) :: l2 := by
  rw [List.map_append, List.map_cons]
  have h1 : l1.map (fun w => if w.id == vid then
      { w with txHash := some tx.txHash, blockNumber := some tx.blockNumber,
               status := VoteStatus.confirmed } else w) = l1 := by
    have := List.map_congr_left (l := l1)
      (f := fun w => if w.id == vid then
        { w with txHash := some tx.txHash, blockNumber := some tx.blockNumber,
                 status := VoteStatus.confirmed } else w)
      (g := fun w => w) (fun a ha => by simp [hfresh a (Or.inl ha)])
    simpa using this
  have h2 : l2.map (fun w => if w.id == vid then
      { w with txHash := some tx.txHash, blockNumber := some tx.blockNumber,
               status := VoteStatus.confirmed } else w) = l2 := by
    have := List.map_congr_left (l := l2)
      (f := fun w => if w.id == vid then
        { w with txHash := some tx.txHash, blockNumber := some tx.blockNumber,
                 status := VoteStatus.confirmed } else w)
      (g := fun w => w) (fun a ha => by simp [hfresh a (Or.inr ha)])
    simpa using this
  rw [h1, h2]
  simp [hid]

/-- Confirming the unique still-pending record with the given id raises the
number of confirmed records for its proposal by exactly one. -/
theorem confirmedCount_confirm_unique (db : DB) (vid pid : Nat) (tx : TxOk)
    (l1 l2 : List VoteRecord) (v : VoteRecord)
    (hsplit : db.votes = l1 ++ v :: l2)
    (hid : v.id = vid)
    (hfresh : ∀ w, w ∈ l1 ∨ w ∈ l2 → w.id ≠ vid)
    (hpend : v.status = VoteStatus.pending)
    (hvp : v.proposalId = pid) :
    confirmedCount (voteUpdateById db vid (fun w =>
        { w with txHash := some tx.txHash, blockNumber := some tx.blockNumber,
                 status := VoteStatus.confirmed })) pid
      = confirmedCount db pid + 1 := by
  unfold confirmedCount voteUpdateById
  dsimp only
  rw [hsplit, confirm_map_decomp l1 l2 v vid tx hid hfresh]
  rw [List.filter_append, List.filter_append, List.filter_cons, List.filter_cons]
  have hqv : (v.proposalId == pid && decide (v.status = VoteStatus.confirmed)) = false := by
    simp [hpend]
  have hqcv : (v.proposalId == pid
      && decide (VoteStatus.confirmed = VoteStatus.confirmed)) = true := by
    simp [hvp]
  simp only [hqv, hqcv]
  simp [hvp, List.length_append]
  omega

/-- `proposalVoteCount` after the `$inc` update. -/
theorem proposalVoteCount_inc (db : DB) (pid : Nat) (p : Proposal)
    (hp : proposalFindById db pid = some p) :
    proposalVoteCount (proposalUpdateById db pid
        (fun q => { q with voteCount := q.voteCount + 1 })) pid
      = proposalVoteCount db pid + 1 := by
  have hfound : (p.id == pid) = true := by
    unfold proposalFindById at hp
    have h2 := List.find?_some hp
    simpa using h2
  unfold proposalVoteCount
  rw [proposalFindById_updateById db pid
    (fun q => { q with voteCount := q.voteCount + 1 }) (fun q => rfl), hp]
  have hpp : p.id = pid := by simpa using hfound
  simp [hpp]

/-- `confirmedCount` ignores the proposals collection. -/
theorem confirmedCount_proposalUpdate (db : DB) (pid pid2 : Nat) (f : Proposal → Proposal) :
    confirmedCount (proposalUpdateById db pid f) pid2 = confirmedCount db pid2 := rfl

/-- `proposalVoteCount` ignores the votes collection. -/
theorem proposalVoteCount_voteUpdate (db : DB) (vid : Nat) (f : VoteRecord → VoteRecord)
    (pid : Nat) :
    proposalVoteCount (voteUpdateById db vid f) pid = proposalVoteCount db pid := rfl

/-- Proposal lookup ignores vote updates. -/
theorem proposalFindById_voteUpdate (db : DB) (vid : Nat) (f : VoteRecord → VoteRecord)
    (pid : Nat) :
    proposalFindById (voteUpdateById db vid f) pid = proposalFindById db pid := rfl

/-- C2 (amended): the vote-counter increment happens once per successful
handler execution, with no per-record gating: one successful execution
against a still-pending record raises both the proposal's `voteCount` and
the number of confirmed records by exactly one (so the two agree exactly
when each job's success path runs once); nothing ties the increment to the
record's terminal transition — the counterexample shows the duplicate
delivery that double-counts. -/
theorem c2_increment_once_per_successful_execution (cfg : Config) (db : DB) (jd : JobData)
    (tx : TxOk) (p : Proposal) (l1 l2 : List VoteRecord) (v : VoteRecord)
    (hcfg : cfg.votingContractAddress.isNone = false)
    (huser : jd.userId ∈ db.users)
    (hcid : jd.contractProposalId.isNone = false)
    (hp : proposalFindById db jd.proposalId = some p)
    (hsplit : db.votes = l1 ++ v :: l2)
    (hid : v.id = jd.voteId)
    (hfresh : ∀ w, w ∈ l1 ∨ w ∈ l2 → w.id ≠ jd.voteId)
    (hpend : v.status = VoteStatus.pending)
    (hvp : v.proposalId = jd.proposalId) :
    confirmedCount (processVoteSubmission cfg db jd (Except.ok tx)).1 jd.proposalId
        = confirmedCount db jd.proposalId + 1 ∧
    proposalVoteCount (processVoteSubmission cfg db jd (Except.ok tx)).1 jd.proposalId
        = proposalVoteCount db jd.proposalId + 1 := by
  rw [processVoteSubmission_ok cfg db jd tx hcfg huser hcid]
  dsimp only
  constructor
  · rw [confirmedCount_proposalUpdate]
    exact confirmedCount_confirm_unique db jd.voteId jd.proposalId tx l1 l2 v
      hsplit hid hfresh hpend hvp
  · rw [proposalVoteCount_inc _ jd.proposalId p
      (by rw [proposalFindById_voteUpdate]; exact hp)]
    rw [proposalVoteCount_voteUpdate]

/-- C2 counterexample: at-least-once delivery delivers `pendingVote`'s
submission job twice and both deliveries reach the success path; the
proposal counter ends at 2 while exactly one confirmed VoteRecord exists —
the increment is not gated by the record's terminal transition. -/
theorem c2_counterexample :
    proposalVoteCount (processVoteSubmission cfg1
        (processVoteSubmission cfg1 db1 jd1 (Except.ok txOk1)).1 jd1 (Except.ok txOk1)).1 1 = 2 ∧
    confirmedCount (processVoteSubmission cfg1
        (processVoteSubmission cfg1 db1 jd1 (Except.ok txOk1)).1 jd1 (Except.ok txOk1)).1 1 = 1 ∧
    (2 : Nat) ≠ 1 :=
  ⟨rfl, rfl, by decide⟩

/-- C2 witness: the amended theorem at the single pending vote of `db1`. -/
theorem c2_witness :
    confirmedCount (processVoteSubmission cfg1 db1 jd1 (Except.ok txOk1)).1 1
        = confirmedCount db1 1 + 1 ∧
    proposalVoteCount (processVoteSubmission cfg1 db1 jd1 (Except.ok txOk1)).1 1
        = proposalVoteCount db1 1 + 1 :=
  c2_increment_once_per_successful_execution cfg1 db1 jd1 txOk1 prop1 [] [] pendingVote
    rfl (by decide) rfl rfl rfl rfl (fun w hw => by rcases hw with h | h <;> cases h) rfl rfl

/-- `computeTally` with its preconditions met and a non-empty fetched vote
list runs the aggregation and persists handle and tx hash. -/
theorem computeTally_ready (db : DB) (pid : Nat) (p : Proposal) (t : TallyOk)
    (hp : proposalFindById db pid = some p)
    (hclosed : p.closed = true)
    (hcid : p.contractProposalId.isNone = false)
    (hvotes : (db.votes.filter (fun v => v.proposalId == pid)).length ≠ 0) :
    computeTally db pid (Except.ok t)
      = (proposalUpdateById db pid (fun q =>
           { q with encryptedTally := some t.handle, txHash := some t.txHash }),
         Except.ok (TallyResult.computed t.handle
           (db.votes.filter (fun v => v.proposalId == pid)).length t.txHash)) := by
  unfold computeTally
  rw [hp]
  simp [hclosed, hcid, hvotes]

/-- C8 (amended): the defined no-op outcome is produced exactly when the
proposal has zero VoteRecords of ANY status — `Vote.find({ proposalId })`
does not filter on status, so the fetched set (and the reported count) is
all records for the proposal, not only the confirmed ones; when any record
exists, even with zero confirmed votes, aggregation proceeds. -/
theorem c8_noop_only_without_any_records (db : DB) (pid : Nat) (p : Proposal) (t : TallyOk)
    (hp : proposalFindById db pid = some p)
    (hclosed : p.closed = true)
    (hcid : p.contractProposalId.isNone = false) :
    (db.votes.filter (fun v => v.proposalId == pid) = [] →
        computeTally db pid (Except.ok t) = (db, Except.ok TallyResult.noop)) ∧
    (db.votes.filter (fun v => v.proposalId == pid) ≠ [] →
        (computeTally db pid (Except.ok t)).2
          = Except.ok (TallyResult.computed t.handle
              (db.votes.filter (fun v => v.proposalId == pid)).length t.txHash)) := by
  constructor
  · intro hnil
    unfold computeTally
    rw [hp]
    simp [hclosed, hcid, hnil]
  · intro hne
    rw [computeTally_ready db pid p t hp hclosed hcid
      (fun h => hne (List.length_eq_zero.mp h))]

/-- C8 counterexample: the closed proposal of `dbFailedOnly` has one
VoteRecord in status `failed` and zero confirmed ones, yet `computeTally`
does not take the no-op outcome — it proceeds to aggregation and reports
voteCount 1, so pending/failed records are not excluded from the set it
aggregates over. -/
theorem c8_counterexample :
    confirmedCount dbFailedOnly 1 = 0 ∧
    (computeTally dbFailedOnly 1 (Except.ok tallyOk1)).2
      = Except.ok (TallyResult.computed "0xH1" 1 "0xTA") ∧
    TallyResult.computed "0xH1" 1 "0xTA" ≠ TallyResult.noop :=
  ⟨by decide, rfl, by decide⟩

/-- C8 witness: the zero-record closed proposal takes the defined no-op,
and the failed-only closed proposal aggregates over its 1 (failed)
record. -/
theorem c8_witness :
    computeTally dbClosedEmpty 1 (Except.ok tallyOk1)
        = (dbClosedEmpty, Except.ok TallyResult.noop) ∧
    (computeTally dbFailedOnly 1 (Except.ok tallyOk1)).2
      = Except.ok (TallyResult.computed tallyOk1.handle
          (dbFailedOnly.votes.filter (fun v => v.proposalId == 1)).length tallyOk1.txHash) :=
  ⟨(c8_noop_only_without_any_records dbClosedEmpty 1 closedProp tallyOk1
      (by decide) rfl rfl).1 rfl,
   (c8_noop_only_without_any_records dbFailedOnly 1 closedProp tallyOk1
      (by decide) rfl rfl).2 (by decide)⟩

/-- C5 (amended): `computeTally` performs no existing-handle check — when
its preconditions hold it runs aggregation regardless of
`proposal.encryptedTally`; invoking it twice aggregates twice, and the
handle persisted after the second invocation is the second aggregation's
handle, overwriting the first. -/
theorem c5_tally_recomputed_without_check (db : DB) (pid : Nat) (p : Proposal)
    (t1 t2 : TallyOk)
    (hp : proposalFindById db pid = some p)
    (hclosed : p.closed = true)
    (hcid : p.contractProposalId.isNone = false)
    (hvotes : (db.votes.filter (fun v => v.proposalId == pid)).length ≠ 0) :
    (computeTally db pid (Except.ok t1)).2
        = Except.ok (TallyResult.computed t1.handle
            (db.votes.filter (fun v => v.proposalId == pid)).length t1.txHash) ∧
    (computeTally (computeTally db pid (Except.ok t1)).1 pid (Except.ok t2)).2
        = Except.ok (TallyResult.computed t2.handle
            (db.votes.filter (fun v => v.proposalId == pid)).length t2.txHash) ∧
    (proposalFindById
        (computeTally (computeTally db pid (Except.ok t1)).1 pid (Except.ok t2)).1 pid).map
      Proposal.encryptedTally = some (some t2.handle) := by
  have hpp : p.id = pid := by
    unfold proposalFindById at hp
    have h2 := List.find?_some hp
    simpa using h2
  have h1 := computeTally_ready db pid p t1 hp hclosed hcid hvotes
  have hp2 : proposalFindById
      (proposalUpdateById db pid (fun q =>
        { q with encryptedTally := some t1.handle, txHash := some t1.txHash })) pid
      = some { p with encryptedTally := some t1.handle, txHash := some t1.txHash } := by
    rw [proposalFindById_updateById db pid
      (fun q => { q with encryptedTally := some t1.handle, txHash := some t1.txHash })
      (fun q => rfl), hp]
    simp [hpp]
  have h2 := computeTally_ready
    (proposalUpdateById db pid (fun q =>
      { q with encryptedTally := some t1.handle, txHash := some t1.txHash }))
    pid { p with encryptedTally := some t1.handle, txHash := some t1.txHash } t2
    hp2 hclosed hcid hvotes
  have hp3 : proposalFindById
      (proposalUpdateById
        (proposalUpdateById db pid (fun q =>
          { q with encryptedTally := some t1.handle, txHash := some t1.txHash }))
        pid (fun q =>
          { q with encryptedTally := some t2.handle, txHash := some t2.txHash })) pid
      = some { p with encryptedTally := some t2.handle, txHash := some t2.txHash } := by
    rw [proposalFindById_updateById _ pid
      (fun q => { q with encryptedTally := some t2.handle, txHash := some t2.txHash })
      (fun q => rfl), hp2]
    simp [hpp]
  refine ⟨by rw [h1], ?_, ?_⟩
  · rw [h1]
    dsimp only
    rw [h2]
    dsimp only
    rw [votes_proposalUpdateById]
  · rw [h1]
    dsimp only
    rw [h2]
    dsimp only
    rw [hp3]
    rfl

/-- C5 counterexample: the proposal of `dbTallied` already holds persisted
tally handle "0xH0", yet invoking the tally handler again re-attempts
aggregation (the outcome is `computed`, not a skip) and overwrites the
persisted handle with the new "0xH2". -/
theorem c5_counterexample :
    talliedProp.encryptedTally = some "0xH0" ∧
    (computeTally dbTallied 1 (Except.ok tallyOk2)).2
      = Except.ok (TallyResult.computed "0xH2" 1 "0xTB") ∧
    (proposalFindById (computeTally dbTallied 1 (Except.ok tallyOk2)).1 1).map
        Proposal.encryptedTally = some (some "0xH2") :=
  ⟨rfl, rfl, rfl⟩

/-- C5 witness: the amended theorem at the closed, freshly-confirmed
proposal, aggregated twice. -/
theorem c5_witness :
    (proposalFindById (computeTally (computeTally dbClosedConfirmed 1 (Except.ok tallyOk1)).1 1
        (Except.ok tallyOk2)).1 1).map Proposal.encryptedTally = some (some "0xH2") :=
  (c5_tally_recomputed_without_check dbClosedConfirmed 1 { closedProp with voteCount := 1 }
    tallyOk1 tallyOk2 rfl rfl rfl (by decide)).2.2

/-- An update that touches neither key field preserves the unique-pair
invariant. -/
theorem pairUnique_map (votes : List VoteRecord) (f : VoteRecord → VoteRecord)
    (hf : ∀ v, (f v).proposalId = v.proposalId ∧ (f v).userId = v.userId)
    (h : PairUnique votes) : PairUnique (votes.map f) := by
  unfold PairUnique at h ⊢
  rw [List.pairwise_map]
  refine h.imp ?_
  intro a b hab hc
  exact hab ⟨by rw [← (hf a).1, ← (hf b).1]; exact hc.1,
             by rw [← (hf a).2, ← (hf b).2]; exact hc.2⟩

/-- Deleting records preserves the unique-pair invariant. -/
theorem pairUnique_filter (votes : List VoteRecord) (q : VoteRecord → Bool)
    (h : PairUnique votes) : PairUnique (votes.filter q) :=
  List.Pairwise.sublist (List.filter_sublist votes) h

/-- Appending a record that collides with nothing preserves the
unique-pair invariant. -/
theorem pairUnique_append_new (votes : List VoteRecord) (v : VoteRecord)
    (h : PairUnique votes) (hnew : ∀ w ∈ votes, ¬ SamePair w v) :
    PairUnique (votes ++ [v]) := by
  unfold PairUnique
  rw [List.pairwise_append]
  refine ⟨h, List.pairwise_singleton _ _, fun a ha b hb => ?_⟩
  rcases List.mem_singleton.mp hb with rfl
  exact hnew a ha

/-- Anatomy of a successful `Vote.create`: the record is appended with the
fresh id and the requested pair, and the store had verified that no record
with that pair existed. -/
theorem voteCreate_ok_shape (db : DB) (pid uid : Nat) (ev : String)
    (ip key : Option String) (db2 : DB) (v : VoteRecord)
    (h : voteCreate db pid uid ev ip key = Except.ok (db2, v)) :
    db2.votes = db.votes ++ [v] ∧ v.proposalId = pid ∧ v.userId = uid ∧
      v.id = db.nextVoteId ∧
      db.votes.any (fun w => w.proposalId == pid && w.userId == uid) = false := by
  unfold voteCreate at h
  split_ifs at h with h1 h2
  dsimp only at h
  injection h with hpr
  rw [Prod.mk.injEq] at hpr
  obtain ⟨hdb, hv⟩ := hpr
  subst hdb
  subst hv
  refine ⟨rfl, rfl, rfl, rfl, ?_⟩
  simpa using h1

/-- A successful `Vote.create` preserves the unique-pair invariant: the
store-level constraint was checked as part of the insert itself. -/
theorem pairUnique_voteCreate (db : DB) (pid uid : Nat) (ev : String)
    (ip key : Option String) (db2 : DB) (v : VoteRecord)
    (h : PairUnique db.votes)
    (hok : voteCreate db pid uid ev ip key = Except.ok (db2, v)) :
    PairUnique db2.votes := by
  obtain ⟨hvotes, hvp, hvu, _, hany⟩ := voteCreate_ok_shape db pid uid ev ip key db2 v hok
  rw [hvotes]
  refine pairUnique_append_new db.votes v h ?_
  intro w hw hsame
  have hmatch : (w.proposalId == pid && w.userId == uid) = true := by
    simp [hsame.1, hvp, hsame.2, hvu]
  have h2 : (db.votes.any fun x => x.proposalId == pid && x.userId == uid) = true :=
    List.any_eq_true.mpr ⟨w, hw, hmatch⟩
  rw [hany] at h2
  simp at h2

/-- The create-and-enqueue tail preserves the unique-pair invariant in all
its outcomes. -/
theorem pairUnique_submitVoteCreate (db : DB) (pid uid : Nat) (ev : String)
    (ip key : Option String) (enq : Except String String)
    (h : PairUnique db.votes) :
    PairUnique (submitVoteCreate db pid uid ev ip key enq).1.votes := by
  unfold submitVoteCreate
  cases hc : voteCreate db pid uid ev ip key with
  | error e => exact h
  | ok pr =>
    obtain ⟨db1, v⟩ := pr
    have h1 : PairUnique db1.votes := pairUnique_voteCreate db pid uid ev ip key db1 v h hc
    cases enq with
    | error m =>
      dsimp only
      unfold voteDeleteById
      exact pairUnique_filter _ _ h1
    | ok j =>
      dsimp only
      unfold voteUpdateById
      exact pairUnique_map _ _
        (fun w => by by_cases hcw : (w.id == v.id) = true <;> simp [hcw]) h1

/-- Every `submitVote` call preserves the unique-pair invariant, whatever
branch it takes. -/
theorem pairUnique_submitVote (db : DB) (now pid uid : Nat) (ev : String)
    (ip key : Option String) (enq : Except String String)
    (h : PairUnique db.votes) :
    PairUnique (submitVote db now pid uid ev ip key enq).1.votes := by
  unfold submitVote
  cases hp : proposalFindById db pid with
  | none => exact h
  | some p =>
    dsimp only
    split_ifs with h1 h2
    · exact h
    · exact h
    · cases hpair : voteFindByPair db pid uid with
      | some w => exact h
      | none =>
        cases key with
        | none => exact pairUnique_submitVoteCreate db pid uid ev ip none enq h
        | some k =>
          dsimp only
          cases hk : voteFindByKey db k with
          | some w => exact h
          | none => exact pairUnique_submitVoteCreate db pid uid ev ip (some k) enq h

/-- C6: the at-most-one-record-per-(proposalId, userId) invariant is
enforced at the store level: `Vote.create` itself rejects an insert whose
pair already exists (independent of any application-level check), a
successful insert preserves the invariant, and every `submitVote` call —
whatever its idempotency token, retry or enqueue outcome — preserves it. -/
theorem c6_unique_pair_constraint (db : DB) (pid uid : Nat) (ev : String)
    (ip key : Option String)
    (h : PairUnique db.votes) :
    ((∃ w ∈ db.votes, w.proposalId = pid ∧ w.userId = uid) →
        ∃ e, voteCreate db pid uid ev ip key = Except.error e) ∧
    (∀ db2 v, voteCreate db pid uid ev ip key = Except.ok (db2, v) → PairUnique db2.votes) ∧
    (∀ now enq, PairUnique (submitVote db now pid uid ev ip key enq).1.votes) := by
  refine ⟨?_, fun db2 v hok => pairUnique_voteCreate db pid uid ev ip key db2 v h hok,
    fun now enq => pairUnique_submitVote db now pid uid ev ip key enq h⟩
  rintro ⟨w, hw, hwp, hwu⟩
  have hc : (db.votes.any fun x => x.proposalId == pid && x.userId == uid) = true :=
    List.any_eq_true.mpr ⟨w, hw, by simp [hwp, hwu]⟩
  exact ⟨_, by unfold voteCreate; rw [if_pos hc]⟩

/-- C6 witness: with `db1`'s record for (proposal 1, user 1) in place, the
store-level insert of a second record for the same pair fails, and a full
`submitVote` call leaves the invariant intact. -/
theorem c6_witness :
    (∃ e, voteCreate db1 1 1 "0xZZ" none none = Except.error e) ∧
    PairUnique (submitVote db1 10 1 1 "0xZZ" none none (Except.ok "j7")).1.votes := by
  have h := c6_unique_pair_constraint db1 1 1 "0xZZ" none none
    (List.pairwise_singleton _ _)
  exact ⟨h.1 ⟨pendingVote, by decide, rfl, rfl⟩, h.2.2 10 (Except.ok "j7")⟩

end Privote
